import Mathlib

/-!
Shallow embedding of the class `RealtimeAudioStreamer` from
`passive_sound_localization/realtime_audio_streamer.py`, together with proofs
about its behaviour.

Modelling conventions.

* A Python `bytes` value is a `List Nat`, one entry per byte.
* Python exceptions are the inductive `PyExc`.  A pure helper that can raise
  returns `Except PyExc α`; a method that both mutates `self` and can raise
  returns `Option PyExc × State`, where the first component is `some e` when
  the method terminates by raising `e` and the state component is the object
  as mutated up to the point of the raise (Python objects keep the partial
  mutations of a method that raises).
* The external PyAudio device API is an oracle record `DeviceApi`.  A hardware
  stream handle (`Stream`) carries, as data, whether its `stop_stream` and
  `close` calls raise — this stands for the externally determined behaviour of
  the audio driver during teardown.  `PyAudio.terminate` is modelled as
  non-raising.
* The two async generators are modelled as fuel-indexed functions returning
  the list of all items yielded during the first `fuel` iterations of their
  `while self.streaming` loop.  Per-cycle device reads come from a read oracle
  `read : Nat → Nat → Except PyExc Bytes` mapping (cycle index, position in
  the device list) to the outcome of `stream.read(self.chunk, ...)`.
-/

namespace PassiveSoundLocalization

/-- Python `bytes`: a list of byte values. -/
abbrev Bytes := List Nat

/-- The Python exception kinds the embedded code can raise or handle. -/
inductive PyExc where
  | attributeError
  | indexError
  | valueError
  | keyError
  | zeroDivisionError
  | osError
  | invalidDeviceIndexError
  deriving DecidableEq, Repr

/-- A PyAudio input stream handle.  The behaviour of its teardown calls is
part of the handle: `stopResult`/`closeResult` are `some e` when the
corresponding driver call (`stop_stream`/`close`) raises `e`, and `none` when
it succeeds. -/
structure Stream where
  stopResult : Option PyExc
  closeResult : Option PyExc
  deriving DecidableEq, Repr

/-- The external PyAudio device API, as an oracle.
`get_device_info_by_index i` returns the device's `defaultSampleRate` (already
converted by `int(...)`) or raises; `openInput channels rate index` models
`self.audio.open(...)` and returns the opened stream handle or raises. -/
structure DeviceApi where
  get_device_info_by_index : Nat → Except PyExc Nat
  openInput : Nat → Nat → Nat → Except PyExc Stream

/-- The attribute state of a `RealtimeAudioStreamer` instance.

Fields `sample_rate` … `original_sample_rates` are exactly the attributes
assigned by `__init__` (lines 16–25 of the source).  The last three fields
model attributes that `__aenter__` would assign dynamically (lines 31–36:
`self.original_sample_rate`, `self.stream`) plus `self.device_index`, which is
READ at line 31 but assigned nowhere in the class; `none` stands for "attribute
absent", and reading an absent attribute raises `AttributeError`. -/
structure RealtimeAudioStreamer where
  sample_rate : Nat
  channels : Nat
  chunk : Nat
  device_indices : List Nat
  format : Nat
  audio : Option Unit
  streams : List (Option Stream)
  streaming : Bool
  original_sample_rates : List (Nat × Nat)
  device_index : Option Nat
  stream : Option Stream
  original_sample_rate : Option Nat
  deriving DecidableEq, Repr

/-- `RealtimeAudioStreamer.__init__` (source lines 16–25).  `format` is set to
the numeric value of the `pyaudio.paInt16` constant (8).  The three dynamic
attributes are absent on a freshly constructed instance. -/
def RealtimeAudioStreamer.init (sample_rate channels chunk : Nat) :
    RealtimeAudioStreamer :=
  { sample_rate := sample_rate
    channels := channels
    chunk := chunk
    device_indices := []
    format := 8
    audio := none
    streams := []
    streaming := false
    original_sample_rates := []
    device_index := none
    stream := none
    original_sample_rate := none }

/-- `RealtimeAudioStreamer.__aenter__` (source lines 27–45).

Line 28 assigns `self.audio = PyAudio()`.  Line 31 then evaluates
`self.audio.get_device_info_by_index(self.device_index)`: the attribute read
`self.device_index` happens first, inside the `try` block, and raises
`AttributeError` when the attribute is absent; the `except IndexError` handler
(line 33) does not catch `AttributeError`, so it propagates.  When the
attribute is present, an `IndexError` from the device API is converted to
`InvalidDeviceIndexError` (line 34); any other API exception propagates.  On
success the stream is opened at the discovered rate and `streaming` is set. -/
def RealtimeAudioStreamer.aenter (api : DeviceApi) (self : RealtimeAudioStreamer) :
    Option PyExc × RealtimeAudioStreamer :=
  let s := { self with audio := some () }
  match s.device_index with
  | none => (some PyExc.attributeError, s)
  | some idx =>
    match api.get_device_info_by_index idx with
    | Except.error PyExc.indexError => (some PyExc.invalidDeviceIndexError, s)
    | Except.error e => (some e, s)
    | Except.ok rate =>
      let s2 := { s with original_sample_rate := some rate }
      match api.openInput s2.channels rate idx with
      | Except.error e => (some e, s2)
      | Except.ok st => (none, { s2 with stream := some st, streaming := true })

/-- The `for stream in self.streams` loop of `__aexit__` (source lines 49–52):
each non-`None` entry has `stop_stream()` then `close()` called on it, with no
exception handling; the first raising call aborts the loop with that
exception. -/
def closeAll : List (Option Stream) → Option PyExc
  | [] => none
  | none :: rest => closeAll rest
  | some st :: rest =>
    match st.stopResult with
    | some e => some e
    | none =>
      match st.closeResult with
      | some e => some e
      | none => closeAll rest

/-- `RealtimeAudioStreamer.__aexit__` (source lines 47–57).  The streaming
flag is cleared first (line 48).  The close loop has no `try`/`except`: if a
`stop_stream`/`close` call raises, the exception propagates out of `__aexit__`
and the remaining statements (clearing `self.streams`, terminating and
clearing `self.audio`) never run. -/
def RealtimeAudioStreamer.aexit (self : RealtimeAudioStreamer) :
    Option PyExc × RealtimeAudioStreamer :=
  let s := { self with streaming := false }
  match closeAll s.streams with
  | some e => (some e, s)
  | none => (none, { s with streams := [], audio := none })

/-- Python's built-in `round` on an exact rational value: round half to even.
(The source computes `len(audio_data) * float(target)/source` in binary
floating point; we use the exact rational value, which agrees except on
values within float rounding error of a tie — irrelevant here because the
result of this computation is never consumed, see `scipy_resample_bytes`.) -/
def pythonRound (q : ℚ) : Int :=
  let f := ⌊q⌋
  let r := q - f
  if r < 1 / 2 then f
  else if 1 / 2 < r then f + 1
  else if f % 2 = 0 then f else f + 1

/-- `numpy` conversion of an (integer-valued) sample to `int16` via
`astype(np.int16)`: a C-style cast that truncates to the low 16 bits and
reinterprets them as signed — it wraps out-of-range values around modulo
2^16 instead of clamping them. -/
def astypeInt16 (x : Int) : Int :=
  let u := x % 65536
  if 32768 ≤ u then u - 65536 else u

/-- `.tobytes()` of one little-endian signed 16-bit sample. -/
def int16ToBytes (s : Int) : List Nat :=
  let u := (s % 65536).toNat
  [u % 256, u / 256]

/-- `.tobytes()` of an int16 array: little-endian, two bytes per sample. -/
def int16ListToBytes (xs : List Int) : Bytes :=
  (xs.map int16ToBytes).flatten

/-- `scipy.signal.resample` applied to a Python `bytes` object (source line
64 passes `audio_data : bytes` directly).  `resample` begins with
`x = np.asarray(x)`; `np.asarray` of a `bytes` object produces a
zero-dimensional array of dtype `S`, whose `shape` is the empty tuple, so the
immediately following `Nx = x.shape[axis]` (default `axis=0`) raises
`IndexError` — for every bytes input and every requested output length.  The
frequency-domain resampling never runs. -/
def scipy_resample_bytes (audio_data : Bytes) (number_of_samples : Nat) :
    Except PyExc (List Int) :=
  Except.error PyExc.indexError

/-- `RealtimeAudioStreamer._resample_audio` (source lines 59–65).

Equal rates return the input unchanged (line 60–61).  Otherwise line 63
computes `number_of_samples = round(len(audio_data) * float(target)/source)`
(a `ZeroDivisionError` if `original_sample_rate` is 0), and line 64 calls
`scipy.signal.resample` on the raw bytes, which raises `IndexError` (see
`scipy_resample_bytes`).  Line 65 — quantisation through `astype(np.int16)`
and `.tobytes()` — is therefore unreachable; it is embedded anyway, with the
float samples idealised as integers, to record that it would wrap rather than
clamp (`astypeInt16`). -/
def RealtimeAudioStreamer._resample_audio (audio_data : Bytes)
    (original_sample_rate target_sample_rate : Nat) : Except PyExc Bytes :=
  if original_sample_rate = target_sample_rate then
    Except.ok audio_data
  else if original_sample_rate = 0 then
    Except.error PyExc.zeroDivisionError
  else
    let number_of_samples :=
      (pythonRound ((audio_data.length : ℚ) * (target_sample_rate : ℚ) /
        (original_sample_rate : ℚ))).toNat
    match scipy_resample_bytes audio_data number_of_samples with
    | Except.error e => Except.error e
    | Except.ok resampled_audio =>
      Except.ok (int16ListToBytes (resampled_audio.map astypeInt16))

/-- Whether all arrays in a list have the same length (the condition under
which `np.sum(audio_arrays, axis=0)` succeeds: `np.asarray` of a ragged list
of arrays raises `ValueError`). -/
def allSameLength : List (List Int) → Bool
  | [] => true
  | a :: rest => rest.all (fun b => b.length == a.length)

/-- Elementwise sum of equal-length arrays (`np.sum(_, axis=0)`). -/
def sumLists : List (List Int) → List Int
  | [] => []
  | [a] => a
  | a :: rest => List.zipWith (· + ·) a (sumLists rest)

/-- Truncation of a rational towards zero — the rounding `astype` applies to
an in-range float. -/
def ratTrunc (q : ℚ) : Int :=
  if 0 ≤ q then ⌊q⌋ else ⌈q⌉

/-- `np.clip(_, -32768, 32767)` on one (exact rational) value. -/
def npClip (q : ℚ) : ℚ :=
  max (-32768) (min 32767 q)

/-- One output sample of the mixer: the mean `s / n` of the summed sample,
clipped to the signed 16-bit range, then converted by `astype(np.int16)`
(truncation towards zero; in range after the clip, so no wrap occurs).  The
float-64 quotient of two machine integers truncates to the same integer as
the exact rational quotient, since a non-integer `s / n` is at least `1 / n`
away from any integer, far above the float rounding error. -/
def mixSample (s : Int) (n : Nat) : Int :=
  ratTrunc (npClip ((s : ℚ) / (n : ℚ)))

/-- `RealtimeAudioStreamer._mix_audio_chunks` (source lines 67–72).

An empty list returns an empty int16 array (lines 68–69).  Otherwise
`np.sum(audio_arrays, axis=0)` requires all arrays to have equal length —
on a ragged list it raises `ValueError` (in numpy ≥ 1.24 from `np.asarray`
on the inhomogeneous list; in older numpy as a broadcast error from the
object-array sum).  There is no truncation to a common length.  On success
the sum is divided by the count, clipped, and converted to int16. -/
def RealtimeAudioStreamer._mix_audio_chunks (audio_arrays : List (List Int)) :
    Except PyExc (List Int) :=
  match audio_arrays with
  | [] => Except.ok []
  | a :: rest =>
    if allSameLength (a :: rest) then
      Except.ok ((sumLists (a :: rest)).map
        (fun s => mixSample s (a :: rest).length))
    else
      Except.error PyExc.valueError

/-- Lookup in the `self.original_sample_rates` dict (`d[k]` raises `KeyError`
when the key is absent). -/
def dictLookup (d : List (Nat × Nat)) (k : Nat) : Except PyExc Nat :=
  match d.find? (fun p => p.1 == k) with
  | some p => Except.ok p.2
  | none => Except.error PyExc.keyError

/-- The body of the per-device `try` block shared by both generators (source
lines 79–86 and 99–107, up to the resample): read the chunk from the stream
(outcome supplied by the oracle), look up the device's original sample rate,
and resample to `self.sample_rate`.  Any raise inside is caught by the
per-device `except` and the device contributes nothing this cycle. -/
def RealtimeAudioStreamer.deviceAttempt (self : RealtimeAudioStreamer)
    (readResult : Except PyExc Bytes) (device_index : Nat) : Except PyExc Bytes :=
  match readResult with
  | Except.error e => Except.error e
  | Except.ok data =>
    match dictLookup self.original_sample_rates device_index with
    | Except.error e => Except.error e
    | Except.ok orig =>
      RealtimeAudioStreamer._resample_audio data orig self.sample_rate

/-- One read cycle of `multi_channel_gen` (source lines 77–88): iterate over
`zip(self.device_indices, self.streams)` in order; a `None` stream raises
`AttributeError` inside the `try` (caught); a successful attempt inserts
`device_index ↦ resampled bytes` into the cycle's dict, preserving order. -/
def RealtimeAudioStreamer.multiCycle (self : RealtimeAudioStreamer)
    (read : Nat → Except PyExc Bytes) : List (Nat × Bytes) :=
  ((self.device_indices.zip self.streams).enum).filterMap (fun p =>
    match p with
    | (_, _, none) => none
    | (i, d, some _) =>
      match self.deviceAttempt (read i) d with
      | Except.ok b => some (d, b)
      | Except.error _ => none)

/-- The `while self.streaming` loop of `multi_channel_gen`, with explicit
fuel (number of iterations) and cycle counter `k`: the dict built by a cycle
is yielded exactly when it is non-empty (line 89–90). -/
def RealtimeAudioStreamer.multiGenAux (self : RealtimeAudioStreamer)
    (read : Nat → Nat → Except PyExc Bytes) : Nat → Nat → List (List (Nat × Bytes))
  | _, 0 => []
  | k, fuel + 1 =>
    if self.streaming = true then
      let frame := self.multiCycle (read k)
      if frame.isEmpty then self.multiGenAux read (k + 1) fuel
      else frame :: self.multiGenAux read (k + 1) fuel
    else []

/-- `RealtimeAudioStreamer.multi_channel_gen` (source lines 74–92): the items
yielded during the first `fuel` loop iterations. -/
def RealtimeAudioStreamer.multi_channel_gen (self : RealtimeAudioStreamer)
    (read : Nat → Nat → Except PyExc Bytes) (fuel : Nat) :
    List (List (Nat × Bytes)) :=
  self.multiGenAux read 0 fuel

/-- Decode little-endian signed 16-bit samples from bytes (an even-length
prefix; `np.frombuffer` handles the length check separately). -/
def bytesToInt16 : Bytes → List Int
  | lo :: hi :: rest =>
    (let u := lo + 256 * hi
     if 32768 ≤ u then (u : Int) - 65536 else (u : Int)) :: bytesToInt16 rest
  | _ => []

/-- `np.frombuffer(_, dtype=np.int16)` (source line 106): raises `ValueError`
when the byte length is not a multiple of the 2-byte element size. -/
def npFrombufferInt16 (b : Bytes) : Except PyExc (List Int) :=
  if b.length % 2 = 0 then Except.ok (bytesToInt16 b)
  else Except.error PyExc.valueError

/-- One read cycle of `single_channel_gen` (source lines 97–109): like
`multiCycle`, but each successful per-device attempt is decoded to an int16
array and appended to the cycle's list. -/
def RealtimeAudioStreamer.singleCycleArrays (self : RealtimeAudioStreamer)
    (read : Nat → Except PyExc Bytes) : List (List Int) :=
  ((self.device_indices.zip self.streams).enum).filterMap (fun p =>
    match p with
    | (_, _, none) => none
    | (i, d, some _) =>
      match self.deviceAttempt (read i) d with
      | Except.error _ => none
      | Except.ok data =>
        match npFrombufferInt16 data with
        | Except.error _ => none
        | Except.ok arr => some arr)

/-- The `while self.streaming` loop of `single_channel_gen` (source lines
96–112).  When the cycle collected at least one array, the mix runs OUTSIDE
the per-device `try`: an exception from `_mix_audio_chunks` reaches the outer
`except` (line 113), which logs and lets the generator return — modelled by
ending the yielded list there. -/
def RealtimeAudioStreamer.singleGenAux (self : RealtimeAudioStreamer)
    (read : Nat → Nat → Except PyExc Bytes) : Nat → Nat → List Bytes
  | _, 0 => []
  | k, fuel + 1 =>
    if self.streaming = true then
      let arrays := self.singleCycleArrays (read k)
      if arrays.isEmpty then self.singleGenAux read (k + 1) fuel
      else
        match RealtimeAudioStreamer._mix_audio_chunks arrays with
        | Except.error _ => []
        | Except.ok mixed => int16ListToBytes mixed :: self.singleGenAux read (k + 1) fuel
    else []

/-- `RealtimeAudioStreamer.single_channel_gen` (source lines 94–114): the
items yielded during the first `fuel` loop iterations. -/
def RealtimeAudioStreamer.single_channel_gen (self : RealtimeAudioStreamer)
    (read : Nat → Nat → Except PyExc Bytes) (fuel : Nat) : List Bytes :=
  self.singleGenAux read 0 fuel

/-! ## Helper lemmas -/

/-- With no configured devices, a `multi_channel_gen` cycle collects nothing. -/
theorem multiCycle_nil (s : RealtimeAudioStreamer)
    (read1 : Nat → Except PyExc Bytes) (h : s.device_indices = []) :
    s.multiCycle read1 = [] := by
  simp [RealtimeAudioStreamer.multiCycle, h]

/-- With no configured devices, a `single_channel_gen` cycle collects nothing. -/
theorem singleCycleArrays_nil (s : RealtimeAudioStreamer)
    (read1 : Nat → Except PyExc Bytes) (h : s.device_indices = []) :
    s.singleCycleArrays read1 = [] := by
  simp [RealtimeAudioStreamer.singleCycleArrays, h]

/-- With no configured devices, `multi_channel_gen` yields nothing, whatever
the streaming flag, the read outcomes and the number of iterations. -/
theorem multiGenAux_nil (s : RealtimeAudioStreamer)
    (read : Nat → Nat → Except PyExc Bytes) (h : s.device_indices = []) :
    ∀ k fuel, s.multiGenAux read k fuel = [] := by
  intro k fuel
  induction fuel generalizing k with
  | zero => rfl
  | succ n ih =>
    simp [RealtimeAudioStreamer.multiGenAux, multiCycle_nil s _ h, ih]

/-- With no configured devices, `single_channel_gen` yields nothing, whatever
the streaming flag, the read outcomes and the number of iterations. -/
theorem singleGenAux_nil (s : RealtimeAudioStreamer)
    (read : Nat → Nat → Except PyExc Bytes) (h : s.device_indices = []) :
    ∀ k fuel, s.singleGenAux read k fuel = [] := by
  intro k fuel
  induction fuel generalizing k with
  | zero => rfl
  | succ n ih =>
    simp [RealtimeAudioStreamer.singleGenAux, singleCycleArrays_nil s _ h, ih]

/-- Once the streaming flag is false, the `multi_channel_gen` loop body never
runs. -/
theorem multiGenAux_stopped (s : RealtimeAudioStreamer)
    (read : Nat → Nat → Except PyExc Bytes) (h : s.streaming = false) :
    ∀ k fuel, s.multiGenAux read k fuel = [] := by
  intro k fuel
  cases fuel with
  | zero => rfl
  | succ n => simp [RealtimeAudioStreamer.multiGenAux, h]

/-- Once the streaming flag is false, the `single_channel_gen` loop body never
runs. -/
theorem singleGenAux_stopped (s : RealtimeAudioStreamer)
    (read : Nat → Nat → Except PyExc Bytes) (h : s.streaming = false) :
    ∀ k fuel, s.singleGenAux read k fuel = [] := by
  intro k fuel
  cases fuel with
  | zero => rfl
  | succ n => simp [RealtimeAudioStreamer.singleGenAux, h]

/-! ## Concrete states used by individual theorems -/

/-- A streamer in the Streaming state owning two open sessions, the first of
whose `stop_stream` call raises `OSError`. -/
def teardownFailureState : RealtimeAudioStreamer :=
  { sample_rate := 24000
    channels := 1
    chunk := 1024
    device_indices := [0, 1]
    format := 8
    audio := some ()
    streams := [some ⟨some PyExc.osError, none⟩, some ⟨none, none⟩]
    streaming := true
    original_sample_rates := [(0, 48000), (1, 44100)]
    device_index := none
    stream := none
    original_sample_rate := none }

/-- A streamer in the Streaming state with one device whose native rate
(48000) differs from the target rate (24000). -/
def rateMismatchState : RealtimeAudioStreamer :=
  { sample_rate := 24000
    channels := 1
    chunk := 2
    device_indices := [0]
    format := 8
    audio := some ()
    streams := [some ⟨none, none⟩]
    streaming := true
    original_sample_rates := [(0, 48000)]
    device_index := none
    stream := none
    original_sample_rate := none }

/-- A read oracle on which every read succeeds, returning four bytes (two
little-endian int16 samples). -/
def successfulRead : Nat → Nat → Except PyExc Bytes :=
  fun _ _ => Except.ok [0, 1, 0, 1]

/-! ## Claim theorems -/

/-- Claim C1: every `RealtimeAudioStreamer` built by `__init__`, before and
after `__aenter__` is attempted, has `device_indices = []` and `streams = []`
(nothing ever appends to them), so both generators iterate over the zip of
two empty lists and never yield an item — even with the streaming flag forced
true, for every read oracle and every number of loop iterations. -/
theorem C1_empty_device_lists_so_generators_never_yield
    (sr ch chk : Nat) (api : DeviceApi)
    (read : Nat → Nat → Except PyExc Bytes) (fuel : Nat) (b : Bool) :
    (RealtimeAudioStreamer.init sr ch chk).device_indices = [] ∧
    (RealtimeAudioStreamer.init sr ch chk).streams = [] ∧
    ((RealtimeAudioStreamer.aenter api
        (RealtimeAudioStreamer.init sr ch chk)).2).device_indices = [] ∧
    ((RealtimeAudioStreamer.aenter api
        (RealtimeAudioStreamer.init sr ch chk)).2).streams = [] ∧
    RealtimeAudioStreamer.multi_channel_gen
      { (RealtimeAudioStreamer.aenter api
          (RealtimeAudioStreamer.init sr ch chk)).2 with streaming := b }
      read fuel = [] ∧
    RealtimeAudioStreamer.single_channel_gen
      { (RealtimeAudioStreamer.aenter api
          (RealtimeAudioStreamer.init sr ch chk)).2 with streaming := b }
      read fuel = [] := by
  refine ⟨rfl, rfl, rfl, rfl, ?_, ?_⟩
  · exact multiGenAux_nil _ read rfl 0 fuel
  · exact singleGenAux_nil _ read rfl 0 fuel

/-- Claim C2 (code bug): for differing rates, `_resample_audio` never returns
a saturated buffer — it raises `IndexError`, because the raw `bytes` object is
handed to `scipy.signal.resample`, which turns it into a zero-dimensional
array and fails indexing its shape.  Moreover the quantisation step on line 65
(modelled by `astypeInt16`) wraps an overshoot value such as 40000 around to
-25536 instead of clamping it at 32767. -/
theorem C2_resample_raises_instead_of_saturating :
    RealtimeAudioStreamer._resample_audio [0, 1, 0, 1] 48000 24000
        = Except.error PyExc.indexError ∧
    astypeInt16 40000 = -25536 ∧
    astypeInt16 40000 ≠ 32767 := by
  refine ⟨rfl, by decide, by decide⟩

/-- Claim C3 (code bug): for differing rates `_resample_audio` produces no
output buffer at all — the call raises `IndexError` inside
`scipy.signal.resample` — so no output length ever equals
`round(len(buf) * r_tgt / r_src) ± 1`. -/
theorem C3_resample_length_law_unreachable :
    RealtimeAudioStreamer._resample_audio [1, 2, 0, 0, 3, 4] 44100 48000
        = Except.error PyExc.indexError := rfl

/-- Claim C4 (code bug): `_mix_audio_chunks` on buffers of lengths 10 and 12
does not truncate to the minimum length — `np.sum` over the ragged list
raises `ValueError`, so no length-10 result is produced. -/
theorem C4_mix_ragged_lengths_raises :
    RealtimeAudioStreamer._mix_audio_chunks
        [List.replicate 10 (0 : Int), List.replicate 12 (0 : Int)]
        = Except.error PyExc.valueError := rfl

/-- Claim C5 (code bug): `__aenter__` on every instance built by `__init__`
raises `AttributeError` (the read of the never-assigned `self.device_index`),
not `InvalidDeviceIndexError`, whatever the device API would answer; the
streaming flag is never set and no stream is opened. -/
theorem C5_aenter_raises_attribute_error
    (sr ch chk : Nat) (api : DeviceApi) :
    (RealtimeAudioStreamer.aenter api
        (RealtimeAudioStreamer.init sr ch chk)).1 = some PyExc.attributeError ∧
    (RealtimeAudioStreamer.aenter api
        (RealtimeAudioStreamer.init sr ch chk)).1
        ≠ some PyExc.invalidDeviceIndexError ∧
    ((RealtimeAudioStreamer.aenter api
        (RealtimeAudioStreamer.init sr ch chk)).2).streaming = false ∧
    ((RealtimeAudioStreamer.aenter api
        (RealtimeAudioStreamer.init sr ch chk)).2).stream = none := by
  refine ⟨rfl, ?_, rfl, rfl⟩
  intro hc
  have hc2 : (some PyExc.attributeError : Option PyExc)
      = some PyExc.invalidDeviceIndexError := hc
  exact PyExc.noConfusion (Option.some.inj hc2)

/-- Claim C6 (code bug): `__aexit__` does not swallow close errors.  On a
Streaming-state instance owning two open sessions whose first `stop_stream`
raises `OSError`, the exception escapes `__aexit__`, the streams list is left
untouched (the second session is never closed) and the PyAudio handle is
neither terminated nor cleared; only the streaming flag was cleared first. -/
theorem C6_close_error_escalates_and_short_circuits :
    (teardownFailureState.aexit).1 = some PyExc.osError ∧
    (teardownFailureState.aexit).2.audio = some () ∧
    (teardownFailureState.aexit).2.streams = teardownFailureState.streams ∧
    (teardownFailureState.aexit).2.streams ≠ [] ∧
    (teardownFailureState.aexit).2.streaming = false := by
  refine ⟨rfl, rfl, rfl, by decide, rfl⟩

/-- Claim C7: when the source rate equals the target rate, `_resample_audio`
returns the input buffer unchanged, for every buffer and every rate. -/
theorem C7_resample_identity_on_equal_rates (buf : Bytes) (r : Nat) :
    RealtimeAudioStreamer._resample_audio buf r r = Except.ok buf := by
  simp [RealtimeAudioStreamer._resample_audio]

/-- Claim C8: `_mix_audio_chunks` applied to an empty list of buffers returns
an empty buffer and raises no error. -/
theorem C8_mix_empty_returns_empty :
    RealtimeAudioStreamer._mix_audio_chunks [] = Except.ok [] := rfl

/-- Claim C9 (code bug): a cycle in which the device's read succeeds can still
yield nothing.  With one device of native rate 48000 and target rate 24000,
the read returns data but `_resample_audio` raises inside the per-device
`try`, so neither generator yields an item in that cycle — refuting "an output
item is yielded if and only if at least one device's read succeeded". -/
theorem C9_successful_read_but_no_yield :
    successfulRead 0 0 = Except.ok [0, 1, 0, 1] ∧
    rateMismatchState.multi_channel_gen successfulRead 1 = [] ∧
    rateMismatchState.single_channel_gen successfulRead 1 = [] := by
  refine ⟨rfl, rfl, rfl⟩

/-- Claim C10: once the streaming flag is false (Stopped state), both
generators yield zero items for any read oracle and any number of loop
iterations — the loop body is never entered, so no read, no error and no
blocking occurs. -/
theorem C10_stopped_generators_yield_nothing (s : RealtimeAudioStreamer)
    (read : Nat → Nat → Except PyExc Bytes) (fuel : Nat)
    (h : s.streaming = false) :
    s.multi_channel_gen read fuel = [] ∧ s.single_channel_gen read fuel = [] :=
  ⟨multiGenAux_stopped s read h 0 fuel, singleGenAux_stopped s read h 0 fuel⟩

/-- Concrete instance of the previous theorem: a freshly constructed streamer
(streaming flag false) yields nothing from either generator. -/
theorem C10_stopped_generators_yield_nothing_witness :
    (RealtimeAudioStreamer.init 24000 1 1024).multi_channel_gen
      (fun _ _ => Except.error PyExc.osError) 3 = [] ∧
    (RealtimeAudioStreamer.init 24000 1 1024).single_channel_gen
      (fun _ _ => Except.error PyExc.osError) 3 = [] :=
  C10_stopped_generators_yield_nothing (RealtimeAudioStreamer.init 24000 1 1024)
    (fun _ _ => Except.error PyExc.osError) 3 rfl

end PassiveSoundLocalization
